import Mathlib

/-!
Shallow embedding of `main.go` of the lightweight battery monitor daemon.

The daemon polls a battery source and drives a small state machine
(`Monitor.check`) that sends, replaces or clears a desktop alert when the
classified battery level changes.  External calls (the two battery reads and
the notifier send) are modelled by passing their outcomes in explicitly
(`TickEnv`); the observable collaborator calls a tick makes are collected in a
list of `Effect`s.
-/

/-- Per-level alert configuration, from `BatteryLevel` in `main.go` (lines 24-30).
`threshold` models a Go `int`, hence `Int`. -/
structure BatteryLevel where
  threshold : Int
  title : String
  icon : String
  sound : String
  message : String
deriving DecidableEq, Repr

/-- Go zero value of `BatteryLevel`: the value the local variable `level` keeps in
`check` (line 245) when the classified level is `"normal"`. -/
def BatteryLevel.zero : BatteryLevel := ⟨0, "", "", "", ""⟩

/-- Daemon configuration, from `Config` in `main.go` (lines 17-22). -/
structure Config where
  appName : String
  pollInterval : Int
  lowBattery : BatteryLevel
  criticalBattery : BatteryLevel
deriving DecidableEq, Repr

/-- Mutable monitor state, fields `Monitor.currentLevel` and
`Monitor.notificationID` (lines 57-58).  The notification identifier is a Go
`uint32`, modelled as `Nat`. -/
structure MonitorState where
  currentLevel : String
  notificationID : Nat
deriving DecidableEq, Repr

/-- The default-filling tail of `loadConfig` (lines 72-80): a zero poll interval
becomes 5 and an empty app name becomes "Battery Monitor". -/
def applyDefaults (c : Config) : Config :=
  let p : Int := if c.pollInterval = 0 then 5 else c.pollInterval
  let n : String := if c.appName = "" then "Battery Monitor" else c.appName
  ⟨n, p, c.lowBattery, c.criticalBattery⟩

/-- Function `loadConfig` (lines 61-83), with the file read and the YAML decode abstracted
into the `parsed` argument (an absent key decodes to the Go zero value, so an
absent `poll_interval` arrives here as `0` and an absent `app_name` as `""`).
On parse success the defaults are applied to the decoded config. -/
def loadConfig (parsed : Except String Config) : Except String Config :=
  match parsed with
  | Except.error e => Except.error e
  | Except.ok c => Except.ok (applyDefaults c)

/-- The wire urgency byte computed by the `switch` at the top of
`DBusNotifier.Send` (lines 149-157). -/
def urgencyLevelOf (urgency : String) : Nat :=
  if urgency = "critical" then 2
  else if urgency = "normal" then 1
  else 0

/-- Method `DBusNotifier.Send` (lines 148-183), with the D-Bus `Notify` round trip
abstracted into `callResult` (the identifier the call stores, or its error).
The result carries the wire urgency placed in the hints map together with the
returned identifier, so that the urgency actually sent is observable. -/
def DBusNotifier.Send (urgency : String) (callResult : Except String Nat) :
    Except String (Nat × Nat) :=
  match callResult with
  | Except.error e => Except.error e
  | Except.ok id => Except.ok (urgencyLevelOf urgency, id)

/-- Method `DBusNotifier.Close` (lines 185-191), with the D-Bus `CloseNotification`
round trip abstracted into `transportErr`.  The first component records whether
the transport call was made at all; the second is the error returned to the
caller. -/
def DBusNotifier.Close (id : Nat) (transportErr : Option String) :
    Bool × Option String :=
  if id = 0 then (false, none) else (true, transportErr)

/-- One observable collaborator call made during a tick of `Monitor.check`:
a `notifier.Send`, a `notifier.Close`, or a `playSound` invocation. -/
inductive Effect where
  | send (title body urgency icon : String)
  | close (id : Nat)
  | play (sound : String)
deriving DecidableEq, Repr

/-- Whether an effect is a `notifier.Send` call. -/
def Effect.isSend : Effect → Bool
  | Effect.send _ _ _ _ => true
  | _ => false

/-- Whether an effect is a `notifier.Close` call. -/
def Effect.isClose : Effect → Bool
  | Effect.close _ => true
  | _ => false

/-- Decidable equality for `Except`, needed to decide concrete facts about
tick environments and results. -/
instance {ε α : Type} [DecidableEq ε] [DecidableEq α] : DecidableEq (Except ε α)
  | Except.error a, Except.error b =>
    if h : a = b then isTrue (by rw [h]) else isFalse (by intro c; cases c; exact h rfl)
  | Except.error _, Except.ok _ => isFalse (by intro c; cases c)
  | Except.ok _, Except.error _ => isFalse (by intro c; cases c)
  | Except.ok a, Except.ok b =>
    if h : a = b then isTrue (by rw [h]) else isFalse (by intro c; cases c; exact h rfl)

/-- Outcomes of the external calls one tick may make: the `IsCharging` read,
the `Capacity` read and (if a send happens this tick) the notifier send. -/
structure TickEnv where
  charging : Except String Bool
  capacity : Except String Int
  sendResult : Except String Nat
deriving DecidableEq, Repr

/-- Result of one `Monitor.check` call: the error it returns (if any), the
monitor state afterwards and the collaborator calls it made, in order. -/
structure TickResult where
  err : Option String
  state : MonitorState
  effects : List Effect
deriving DecidableEq, Repr

/-- Models `fmt.Sprintf(level.Message, capacity)` for a message template holding
a single `%d` verb (the shape the config contract requires). -/
def formatMessage (template : String) (capacity : Int) : String :=
  template.replace "%d" (toString capacity)

/-- The classification block of `check` (lines 247-255): the new level string
together with the `BatteryLevel` spec selected for it (`level` keeps its Go zero
value on the `"normal"` branch, where it is never read). -/
def classifyWith (cfg : Config) (capacity : Int) : String × BatteryLevel :=
  if capacity ≤ cfg.criticalBattery.threshold then ("critical", cfg.criticalBattery)
  else if capacity ≤ cfg.lowBattery.threshold then ("low", cfg.lowBattery)
  else ("normal", BatteryLevel.zero)

/-- The level string computed by the classification block of `check`. -/
def newLevelOf (cfg : Config) (capacity : Int) : String :=
  (classifyWith cfg capacity).1

/-- Method `Monitor.check` (lines 217-288).  Faithful points: the charging branch
(lines 223-234) returns before any capacity read; the send branch condition is
`newLevel != currentLevel && newLevel != "normal"` (line 258); on send failure
only the log happens inside the `if` — the `m.playSound(level.Sound)` call and
the `m.currentLevel = newLevel` assignment (lines 276-277) sit after the
`if/else` and run regardless of the send outcome, while `m.notificationID` is
assigned only on send success (line 273); the old notification is closed only
when its identifier is nonzero and differs from the new one (line 270). -/
def check (cfg : Config) (st : MonitorState) (env : TickEnv) : TickResult :=
  match env.charging with
  | Except.error e => ⟨some ("read charging status: " ++ e), st, []⟩
  | Except.ok charging =>
    if charging then
      if st.currentLevel ≠ "normal" then
        ⟨none, ⟨"normal", 0⟩, [Effect.close st.notificationID]⟩
      else
        ⟨none, st, []⟩
    else
      match env.capacity with
      | Except.error e => ⟨some ("read capacity: " ++ e), st, []⟩
      | Except.ok capacity =>
        let nl := (classifyWith cfg capacity).1
        let level := (classifyWith cfg capacity).2
        if nl ≠ st.currentLevel ∧ nl ≠ "normal" then
          match env.sendResult with
          | Except.error _ =>
            ⟨none, ⟨nl, st.notificationID⟩,
              [Effect.send level.title (formatMessage level.message capacity)
                 "critical" level.icon,
               Effect.play level.sound]⟩
          | Except.ok id =>
            ⟨none, ⟨nl, id⟩,
              [Effect.send level.title (formatMessage level.message capacity)
                 "critical" level.icon]
              ++ (if st.notificationID ≠ 0 ∧ st.notificationID ≠ id then
                    [Effect.close st.notificationID]
                  else [])
              ++ [Effect.play level.sound]⟩
        else if nl = "normal" ∧ st.currentLevel ≠ "normal" then
          ⟨none, ⟨"normal", 0⟩, [Effect.close st.notificationID]⟩
        else
          ⟨none, st, []⟩

/-- Run a sequence of ticks, threading the monitor state and concatenating the
effects of each tick (the shape of the loop in `Monitor.run`, lines 296-308). -/
def runTicks (cfg : Config) (st : MonitorState) : List TickEnv → MonitorState × List Effect
  | [] => (st, [])
  | env :: envs =>
    let r := check cfg st env
    let rest := runTicks cfg r.state envs
    (rest.1, r.effects ++ rest.2)

/-- Monitor states reachable from the startup state `⟨"normal", 0⟩` built in
`main` (lines 342-347) by any sequence of `check` ticks. -/
inductive Reachable (cfg : Config) : MonitorState → Prop where
  | init : Reachable cfg ⟨"normal", 0⟩
  | step (st : MonitorState) (env : TickEnv) :
      Reachable cfg st → Reachable cfg (check cfg st env).state

/-- The Monitor State invariant of the spec: the active notification identifier
is nonzero iff the current level is not `"normal"`. -/
abbrev StateInv (st : MonitorState) : Prop :=
  st.notificationID ≠ 0 ↔ st.currentLevel ≠ "normal"

/-- Severity order on level strings: `"normal"` < `"low"` < `"critical"`. -/
def severity (l : String) : Nat :=
  if l = "critical" then 2 else if l = "low" then 1 else 0

/-- The reference classifier, following the spec's words (§4.4): charging
overrides unconditionally, then the critical test runs before the low test. -/
def classifySpec (capacity : Int) (charging : Bool)
    (lowSpec criticalSpec : BatteryLevel) : String :=
  if charging then "normal"
  else if capacity ≤ criticalSpec.threshold then "critical"
  else if capacity ≤ lowSpec.threshold then "low"
  else "normal"

/-- A concrete configuration (thresholds low 20, critical 10) used for witnesses
and scenarios. -/
def cfgEx : Config :=
  ⟨"Battery Monitor", 5,
   ⟨20, "Low Battery", "battery-low", "", "Battery at %d percent"⟩,
   ⟨10, "Critical Battery", "battery-caution", "", "Battery at %d percent"⟩⟩

/-- A concrete configuration with inverted thresholds (critical 20 above low 10),
exercising the overlap band of the classifier's evaluation order. -/
def cfgInverted : Config :=
  ⟨"Battery Monitor", 5,
   ⟨10, "Low Battery", "battery-low", "", "Battery at %d percent"⟩,
   ⟨20, "Critical Battery", "battery-caution", "", "Battery at %d percent"⟩⟩

/-- The edge-triggering scenario: from the startup state, three discharging
ticks classifying low, low, critical, with sends succeeding with identifiers
`id1`, `id1`, `id2` respectively. -/
def scenario (id1 id2 : Nat) : MonitorState × List Effect :=
  runTicks cfgEx ⟨"normal", 0⟩
    [⟨Except.ok false, Except.ok 18, Except.ok id1⟩,
     ⟨Except.ok false, Except.ok 18, Except.ok id1⟩,
     ⟨Except.ok false, Except.ok 9, Except.ok id2⟩]

example : newLevelOf cfgEx 18 = "low" := by decide
example : newLevelOf cfgEx 9 = "critical" := by decide
example : newLevelOf cfgEx 25 = "normal" := by decide
example :
    (check cfgEx ⟨"normal", 0⟩ ⟨Except.ok false, Except.ok 15, Except.error "dbus"⟩).state
      = ⟨"low", 0⟩ := by decide

/-- Reduction lemma: a failing charging read aborts the tick. -/
theorem check_read_charging_error (cfg : Config) (st : MonitorState) (e : String)
    (ecap : Except String Int) (es : Except String Nat) :
    check cfg st ⟨Except.error e, ecap, es⟩
      = ⟨some ("read charging status: " ++ e), st, []⟩ := rfl

/-- Reduction lemma: a failing capacity read while discharging aborts the tick. -/
theorem check_read_capacity_error (cfg : Config) (st : MonitorState) (e : String)
    (es : Except String Nat) :
    check cfg st ⟨Except.ok false, Except.error e, es⟩
      = ⟨some ("read capacity: " ++ e), st, []⟩ := rfl

/-- Reduction lemma: the charging branch of `check`. -/
theorem check_charging_true (cfg : Config) (st : MonitorState)
    (ecap : Except String Int) (es : Except String Nat) :
    check cfg st ⟨Except.ok true, ecap, es⟩
      = if st.currentLevel ≠ "normal" then
          ⟨none, ⟨"normal", 0⟩, [Effect.close st.notificationID]⟩
        else ⟨none, st, []⟩ := rfl

/-- Reduction lemma: a discharging tick with a successful capacity read, fully
unfolded to the branch structure of lines 257-285. -/
theorem check_discharging (cfg : Config) (st : MonitorState) (capacity : Int)
    (es : Except String Nat) :
    check cfg st ⟨Except.ok false, Except.ok capacity, es⟩
      = if (classifyWith cfg capacity).1 ≠ st.currentLevel
            ∧ (classifyWith cfg capacity).1 ≠ "normal" then
          match es with
          | Except.error _ =>
            ⟨none, ⟨(classifyWith cfg capacity).1, st.notificationID⟩,
              [Effect.send (classifyWith cfg capacity).2.title
                 (formatMessage (classifyWith cfg capacity).2.message capacity)
                 "critical" (classifyWith cfg capacity).2.icon,
               Effect.play (classifyWith cfg capacity).2.sound]⟩
          | Except.ok id =>
            ⟨none, ⟨(classifyWith cfg capacity).1, id⟩,
              [Effect.send (classifyWith cfg capacity).2.title
                 (formatMessage (classifyWith cfg capacity).2.message capacity)
                 "critical" (classifyWith cfg capacity).2.icon]
              ++ (if st.notificationID ≠ 0 ∧ st.notificationID ≠ id then
                    [Effect.close st.notificationID]
                  else [])
              ++ [Effect.play (classifyWith cfg capacity).2.sound]⟩
        else if (classifyWith cfg capacity).1 = "normal" ∧ st.currentLevel ≠ "normal" then
          ⟨none, ⟨"normal", 0⟩, [Effect.close st.notificationID]⟩
        else ⟨none, st, []⟩ := rfl

/-- Reduction lemma: a discharging tick whose classified level equals the
current one is a no-op. -/
theorem check_noop (cfg : Config) (st : MonitorState) (capacity : Int)
    (es : Except String Nat)
    (hsame : (classifyWith cfg capacity).1 = st.currentLevel) :
    check cfg st ⟨Except.ok false, Except.ok capacity, es⟩ = ⟨none, st, []⟩ := by
  rw [check_discharging]
  rw [if_neg (fun h => h.1 hsame)]
  rw [if_neg (fun h => h.2 (hsame ▸ h.1))]

/-- Case analysis on the state produced by one tick: it is unchanged, reset to
the startup state, or at a non-normal level. -/
theorem check_state_shape (cfg : Config) (st : MonitorState) (env : TickEnv) :
    (check cfg st env).state = st ∨ (check cfg st env).state = ⟨"normal", 0⟩ ∨
      (check cfg st env).state.currentLevel ≠ "normal" := by
  have heta : env = ⟨env.charging, env.capacity, env.sendResult⟩ := rfl
  rw [heta]
  rcases hc : env.charging with e | b
  · rw [check_read_charging_error]
    exact Or.inl rfl
  · cases b
    · rcases hcap : env.capacity with e | capacity
      · rw [check_read_capacity_error]
        exact Or.inl rfl
      · rw [check_discharging]
        by_cases hb : (classifyWith cfg capacity).1 ≠ st.currentLevel
            ∧ (classifyWith cfg capacity).1 ≠ "normal"
        · rw [if_pos hb]
          refine Or.inr (Or.inr ?_)
          rcases hs : env.sendResult with e | id <;> exact hb.2
        · rw [if_neg hb]
          by_cases hr : (classifyWith cfg capacity).1 = "normal" ∧ st.currentLevel ≠ "normal"
          · rw [if_pos hr]
            exact Or.inr (Or.inl rfl)
          · rw [if_neg hr]
            exact Or.inl rfl
    · rw [check_charging_true]
      by_cases hn : st.currentLevel ≠ "normal"
      · rw [if_pos hn]
        exact Or.inr (Or.inl rfl)
      · rw [if_neg hn]
        exact Or.inl rfl

/-- Every reachable monitor state satisfies the easy direction of the Monitor
State invariant: at level `"normal"` the notification identifier is zero. -/
theorem reachable_normal_id (cfg : Config) (st : MonitorState) (h : Reachable cfg st) :
    st.currentLevel = "normal" → st.notificationID = 0 := by
  induction h with
  | init => intro _; rfl
  | step st' env _ ih =>
    rcases check_state_shape cfg st' env with he | he | he
    · rw [he]; exact ih
    · rw [he]; intro _; rfl
    · intro hn; exact absurd hn he

/-- Classification helper: at or below the critical threshold the level is
`"critical"`. -/
theorem newLevelOf_critical (cfg : Config) (c : Int)
    (h : c ≤ cfg.criticalBattery.threshold) : newLevelOf cfg c = "critical" := by
  unfold newLevelOf classifyWith
  rw [if_pos h]

/-- Classification helper: above the critical threshold but at or below the low
threshold the level is `"low"`. -/
theorem newLevelOf_low (cfg : Config) (c : Int)
    (h1 : ¬c ≤ cfg.criticalBattery.threshold) (h2 : c ≤ cfg.lowBattery.threshold) :
    newLevelOf cfg c = "low" := by
  unfold newLevelOf classifyWith
  rw [if_neg h1, if_pos h2]

/-- Classification helper: above both thresholds the level is `"normal"`. -/
theorem newLevelOf_normal (cfg : Config) (c : Int)
    (h1 : ¬c ≤ cfg.criticalBattery.threshold) (h2 : ¬c ≤ cfg.lowBattery.threshold) :
    newLevelOf cfg c = "normal" := by
  unfold newLevelOf classifyWith
  rw [if_neg h1, if_neg h2]

/-- C3: the per-tick classification refines the spec's reference classifier:
for every capacity and charging flag the reference `classifySpec` agrees with
charging override plus the code's `newLevelOf`; a charging tick always ends at
level `"normal"`; and under inverted thresholds a capacity in the overlap band
(above low's threshold, at or below critical's) classifies as `"critical"`
because the critical test runs first. -/
theorem classify_refines_spec (cfg : Config) (capacity : Int)
    (_h1 : cfg.lowBattery.threshold < capacity)
    (h2 : capacity ≤ cfg.criticalBattery.threshold) :
    (∀ (c : Int) (b : Bool),
        classifySpec c b cfg.lowBattery cfg.criticalBattery
          = if b then "normal" else newLevelOf cfg c)
      ∧ (∀ (st : MonitorState) (ecap : Except String Int) (es : Except String Nat),
          (check cfg st ⟨Except.ok true, ecap, es⟩).state.currentLevel = "normal")
      ∧ classifySpec capacity false cfg.lowBattery cfg.criticalBattery = "critical"
      ∧ newLevelOf cfg capacity = "critical" := by
  refine ⟨?_, ?_, ?_, ?_⟩
  · intro c b
    cases b
    · show classifySpec c false _ _ = newLevelOf cfg c
      unfold classifySpec newLevelOf classifyWith
      rw [if_neg (by simp)]
      by_cases hc : c ≤ cfg.criticalBattery.threshold
      · rw [if_pos hc, if_pos hc]
      · rw [if_neg hc, if_neg hc]
        by_cases hl : c ≤ cfg.lowBattery.threshold
        · rw [if_pos hl, if_pos hl]
        · rw [if_neg hl, if_neg hl]
    · rfl
  · intro st ecap es
    rw [check_charging_true]
    by_cases hn : st.currentLevel ≠ "normal"
    · rw [if_pos hn]
    · rw [if_neg hn]
      exact not_not.mp hn
  · show (if capacity ≤ cfg.criticalBattery.threshold then "critical" else _) = "critical"
    rw [if_pos h2]
  · exact newLevelOf_critical cfg capacity h2

/-- Witness for `classify_refines_spec` at the inverted configuration
(low threshold 10, critical threshold 20) and capacity 15. -/
theorem classify_refines_spec_witness :
    cfgInverted.lowBattery.threshold < 15
      ∧ (15 : Int) ≤ cfgInverted.criticalBattery.threshold
      ∧ ((∀ (c : Int) (b : Bool),
            classifySpec c b cfgInverted.lowBattery cfgInverted.criticalBattery
              = if b then "normal" else newLevelOf cfgInverted c)
          ∧ (∀ (st : MonitorState) (ecap : Except String Int) (es : Except String Nat),
              (check cfgInverted st ⟨Except.ok true, ecap, es⟩).state.currentLevel = "normal")
          ∧ classifySpec 15 false cfgInverted.lowBattery cfgInverted.criticalBattery = "critical"
          ∧ newLevelOf cfgInverted 15 = "critical") :=
  ⟨by decide, by decide, classify_refines_spec cfgInverted 15 (by decide) (by decide)⟩

/-- C6: with charging false and fixed thresholds, classification is monotone in
severity — a lower capacity never classifies less severely than a higher one. -/
theorem classification_monotone (cfg : Config) (c1 c2 : Int) (h : c2 ≤ c1) :
    severity (newLevelOf cfg c1) ≤ severity (newLevelOf cfg c2) := by
  by_cases h1 : c1 ≤ cfg.criticalBattery.threshold
  · rw [newLevelOf_critical cfg c1 h1, newLevelOf_critical cfg c2 (le_trans h h1)]
  · by_cases h2 : c1 ≤ cfg.lowBattery.threshold
    · rw [newLevelOf_low cfg c1 h1 h2]
      by_cases h3 : c2 ≤ cfg.criticalBattery.threshold
      · rw [newLevelOf_critical cfg c2 h3]
        decide
      · rw [newLevelOf_low cfg c2 h3 (le_trans h h2)]
    · rw [newLevelOf_normal cfg c1 h1 h2]
      exact Nat.zero_le _

/-- Witness for `classification_monotone` at capacities 18 and 5. -/
theorem classification_monotone_witness :
    (5 : Int) ≤ 18 ∧ severity (newLevelOf cfgEx 18) ≤ severity (newLevelOf cfgEx 5) :=
  ⟨by decide, classification_monotone cfgEx 18 5 (by decide)⟩

/-- C7: closing notification identifier 0 performs no transport call and
returns no error, whatever the transport would have answered. -/
theorem close_zero_noop (transportErr : Option String) :
    DBusNotifier.Close 0 transportErr = (false, none) := rfl

/-- C8: the urgency-to-wire mapping is total — `"critical"` maps to 2,
`"normal"` to 1, any other string to 0 — and `Send` succeeds exactly when the
transport call does, never failing because of the urgency value. -/
theorem send_urgency_total (u : String) (hu1 : u ≠ "critical") (hu2 : u ≠ "normal") :
    urgencyLevelOf "critical" = 2 ∧ urgencyLevelOf "normal" = 1 ∧ urgencyLevelOf u = 0
      ∧ ∀ (v : String) (r : Except String Nat),
          (DBusNotifier.Send v r).isOk = r.isOk := by
  refine ⟨rfl, rfl, ?_, ?_⟩
  · unfold urgencyLevelOf
    rw [if_neg hu1, if_neg hu2]
  · intro v r
    cases r <;> rfl

/-- Witness for `send_urgency_total` at the unrecognized urgency `"loud"`. -/
theorem send_urgency_total_witness :
    ("loud" : String) ≠ "critical" ∧ ("loud" : String) ≠ "normal"
      ∧ (urgencyLevelOf "critical" = 2 ∧ urgencyLevelOf "normal" = 1
          ∧ urgencyLevelOf "loud" = 0
          ∧ ∀ (v : String) (r : Except String Nat),
              (DBusNotifier.Send v r).isOk = r.isOk) :=
  ⟨by decide, by decide, send_urgency_total "loud" (by decide) (by decide)⟩

/-- C10: a battery read error — a failing charging read, or a failing capacity
read while discharging — aborts the tick atomically: `check` returns the error,
the state is unchanged and no collaborator call is made. -/
theorem read_error_aborts_tick (cfg : Config) (st : MonitorState) (env : TickEnv)
    (e : String)
    (h : env.charging = Except.error e
        ∨ (env.charging = Except.ok false ∧ env.capacity = Except.error e)) :
    (check cfg st env).state = st ∧ (check cfg st env).effects = []
      ∧ (check cfg st env).err.isSome = true := by
  have heta : env = ⟨env.charging, env.capacity, env.sendResult⟩ := rfl
  rw [heta]
  rcases h with h | ⟨h1, h2⟩
  · rw [h, check_read_charging_error]
    exact ⟨rfl, rfl, rfl⟩
  · rw [h1, h2, check_read_capacity_error]
    exact ⟨rfl, rfl, rfl⟩

/-- Witness for `read_error_aborts_tick` at a failing charging read from the
state `⟨"low", 3⟩`. -/
theorem read_error_aborts_tick_witness :
    (check cfgEx ⟨"low", 3⟩ ⟨Except.error "io", Except.ok 50, Except.ok 1⟩).state = ⟨"low", 3⟩
      ∧ (check cfgEx ⟨"low", 3⟩ ⟨Except.error "io", Except.ok 50, Except.ok 1⟩).effects = []
      ∧ (check cfgEx ⟨"low", 3⟩ ⟨Except.error "io", Except.ok 50, Except.ok 1⟩).err.isSome
          = true :=
  read_error_aborts_tick cfgEx ⟨"low", 3⟩ ⟨Except.error "io", Except.ok 50, Except.ok 1⟩
    "io" (Or.inl rfl)

/-- C1 counterexample: at thresholds low 20 / critical 10, from the startup
state, a discharging tick at capacity 15 whose send fails leaves the monitor at
level `"low"` — `currentLevel` does not keep its prior value `"normal"` — and
the next tick with the same capacity attempts no send, so there is no retry. -/
theorem send_failure_advances_level_cex :
    (check cfgEx ⟨"normal", 0⟩ ⟨Except.ok false, Except.ok 15, Except.error "dbus"⟩).state
        = ⟨"low", 0⟩
      ∧ (check cfgEx ⟨"normal", 0⟩
            ⟨Except.ok false, Except.ok 15, Except.error "dbus"⟩).state ≠ ⟨"normal", 0⟩
      ∧ (check cfgEx ⟨"low", 0⟩
            ⟨Except.ok false, Except.ok 15, Except.ok 7⟩).effects.countP Effect.isSend = 0 := by
  decide

/-- C1 amended: when a level transition into an alert state is attempted and
the send fails, `notificationID` keeps its prior value but `currentLevel` is
advanced to the new level anyway (and `check` still returns nil); no close
happens, exactly one send is attempted this tick, and the next discharging tick
at the same capacity makes no collaborator call at all — the send is not
retried. -/
theorem send_failure_partial_advance (cfg : Config) (st : MonitorState) (capacity : Int)
    (e : String) (es : Except String Nat)
    (h1 : (classifyWith cfg capacity).1 ≠ st.currentLevel)
    (h2 : (classifyWith cfg capacity).1 ≠ "normal") :
    (check cfg st ⟨Except.ok false, Except.ok capacity, Except.error e⟩).err = none
      ∧ (check cfg st ⟨Except.ok false, Except.ok capacity, Except.error e⟩).state
          = ⟨(classifyWith cfg capacity).1, st.notificationID⟩
      ∧ (check cfg st
            ⟨Except.ok false, Except.ok capacity, Except.error e⟩).effects.countP
          Effect.isSend = 1
      ∧ (check cfg st
            ⟨Except.ok false, Except.ok capacity, Except.error e⟩).effects.countP
          Effect.isClose = 0
      ∧ (check cfg (⟨(classifyWith cfg capacity).1, st.notificationID⟩ : MonitorState)
            ⟨Except.ok false, Except.ok capacity, es⟩).effects = [] := by
  rw [check_discharging, if_pos ⟨h1, h2⟩]
  refine ⟨rfl, rfl, rfl, rfl, ?_⟩
  rw [check_noop cfg ⟨(classifyWith cfg capacity).1, st.notificationID⟩ capacity es rfl]

/-- Witness for `send_failure_partial_advance`: startup state, capacity 15,
failing send. -/
theorem send_failure_partial_advance_witness :
    (classifyWith cfgEx 15).1 ≠ ("normal" : String)
      ∧ ((check cfgEx ⟨"normal", 0⟩ ⟨Except.ok false, Except.ok 15, Except.error "dbus"⟩).err
            = none
          ∧ (check cfgEx ⟨"normal", 0⟩
                ⟨Except.ok false, Except.ok 15, Except.error "dbus"⟩).state
              = ⟨(classifyWith cfgEx 15).1, 0⟩
          ∧ (check cfgEx ⟨"normal", 0⟩
                ⟨Except.ok false, Except.ok 15, Except.error "dbus"⟩).effects.countP
              Effect.isSend = 1
          ∧ (check cfgEx ⟨"normal", 0⟩
                ⟨Except.ok false, Except.ok 15, Except.error "dbus"⟩).effects.countP
              Effect.isClose = 0
          ∧ (check cfgEx (⟨(classifyWith cfgEx 15).1, 0⟩ : MonitorState)
                ⟨Except.ok false, Except.ok 15, Except.ok 7⟩).effects = []) :=
  ⟨by decide,
   send_failure_partial_advance cfgEx ⟨"normal", 0⟩ 15 "dbus" (Except.ok 7)
     (by decide) (by decide)⟩

/-- C2 counterexample: the invariant holds at the startup state, yet one tick
with a failing send transitions it to `⟨"critical", 0⟩`, where the invariant
fails — the transition function does not preserve it. -/
theorem invariant_broken_on_send_failure_cex :
    StateInv (⟨"normal", 0⟩ : MonitorState)
      ∧ (check cfgEx ⟨"normal", 0⟩ ⟨Except.ok false, Except.ok 5, Except.error "dbus"⟩).state
          = ⟨"critical", 0⟩
      ∧ ¬StateInv (⟨"critical", 0⟩ : MonitorState) := by
  decide

/-- C2 amended: the invariant (identifier nonzero iff level not `"normal"`)
holds in the initial state and is preserved by every tick whose send outcome —
used only if a send actually happens — is a success carrying a nonzero
identifier; a failed send violates it. -/
theorem state_invariant_conditional (cfg : Config) (st : MonitorState) (env : TickEnv)
    (id : Nat) (hinv : StateInv st) (hsend : env.sendResult = Except.ok id)
    (hid : id ≠ 0) :
    StateInv (⟨"normal", 0⟩ : MonitorState) ∧ StateInv (check cfg st env).state := by
  refine ⟨by decide, ?_⟩
  have heta : env = ⟨env.charging, env.capacity, env.sendResult⟩ := rfl
  rw [heta, hsend]
  rcases hc : env.charging with e | b
  · rw [check_read_charging_error]
    exact hinv
  · cases b
    · rcases hcap : env.capacity with e | capacity
      · rw [check_read_capacity_error]
        exact hinv
      · rw [check_discharging]
        by_cases hb : (classifyWith cfg capacity).1 ≠ st.currentLevel
            ∧ (classifyWith cfg capacity).1 ≠ "normal"
        · rw [if_pos hb]
          exact ⟨fun _ => hb.2, fun _ => hid⟩
        · rw [if_neg hb]
          by_cases hr : (classifyWith cfg capacity).1 = "normal" ∧ st.currentLevel ≠ "normal"
          · rw [if_pos hr]
            exact iff_of_false (fun h => h rfl) (fun h => h rfl)
          · rw [if_neg hr]
            exact hinv
    · rw [check_charging_true]
      by_cases hn : st.currentLevel ≠ "normal"
      · rw [if_pos hn]
        exact iff_of_false (fun h => h rfl) (fun h => h rfl)
      · rw [if_neg hn]
        exact hinv

/-- Witness for `state_invariant_conditional`: a low-entry tick whose send
succeeds with identifier 7. -/
theorem state_invariant_conditional_witness :
    StateInv (⟨"normal", 0⟩ : MonitorState)
      ∧ (⟨Except.ok false, Except.ok 15, Except.ok 7⟩ : TickEnv).sendResult = Except.ok 7
      ∧ (7 : Nat) ≠ 0
      ∧ (StateInv (⟨"normal", 0⟩ : MonitorState)
          ∧ StateInv
              (check cfgEx ⟨"normal", 0⟩ ⟨Except.ok false, Except.ok 15, Except.ok 7⟩).state) :=
  ⟨by decide, rfl, by decide,
   state_invariant_conditional cfgEx ⟨"normal", 0⟩
     ⟨Except.ok false, Except.ok 15, Except.ok 7⟩ 7 (by decide) rfl (by decide)⟩

/-- C4: on a charging tick from any reachable monitor state, the tick ends at
`⟨"normal", 0⟩`, no send occurs, an active (nonzero-identifier) notification is
closed, a tick starting at level `"normal"` makes no notifier call at all, and
the tick's outcome is independent of the capacity reading — capacity is never
consulted. -/
theorem charging_tick_clears_state (cfg : Config) (st : MonitorState)
    (ecap ecap' : Except String Int) (es : Except String Nat)
    (hreach : Reachable cfg st) :
    (check cfg st ⟨Except.ok true, ecap, es⟩).state = ⟨"normal", 0⟩
      ∧ (check cfg st ⟨Except.ok true, ecap, es⟩).effects.countP Effect.isSend = 0
      ∧ (st.notificationID ≠ 0 →
          Effect.close st.notificationID ∈ (check cfg st ⟨Except.ok true, ecap, es⟩).effects)
      ∧ (st.currentLevel = "normal" →
          (check cfg st ⟨Except.ok true, ecap, es⟩).effects = [])
      ∧ check cfg st ⟨Except.ok true, ecap, es⟩ = check cfg st ⟨Except.ok true, ecap', es⟩ := by
  obtain ⟨l, i⟩ := st
  have hni := reachable_normal_id cfg ⟨l, i⟩ hreach
  by_cases hn : l = "normal"
  · have hid : i = 0 := hni hn
    subst hn
    subst hid
    exact ⟨rfl, rfl, fun h => absurd rfl h, fun _ => rfl, rfl⟩
  · have hn' : (⟨l, i⟩ : MonitorState).currentLevel ≠ "normal" := hn
    rw [check_charging_true cfg ⟨l, i⟩ ecap es, check_charging_true cfg ⟨l, i⟩ ecap' es,
        if_pos hn']
    exact ⟨rfl, rfl, fun _ => List.mem_singleton_self _, fun h => absurd h hn, rfl⟩

/-- Witness for `charging_tick_clears_state` at the (reachable) startup state. -/
theorem charging_tick_clears_state_witness :
    (check cfgEx ⟨"normal", 0⟩ ⟨Except.ok true, Except.ok 5, Except.ok 1⟩).state
        = ⟨"normal", 0⟩
      ∧ (check cfgEx ⟨"normal", 0⟩
            ⟨Except.ok true, Except.ok 5, Except.ok 1⟩).effects.countP Effect.isSend = 0
      ∧ ((0 : Nat) ≠ 0 →
          Effect.close 0
            ∈ (check cfgEx ⟨"normal", 0⟩ ⟨Except.ok true, Except.ok 5, Except.ok 1⟩).effects)
      ∧ (("normal" : String) = "normal" →
          (check cfgEx ⟨"normal", 0⟩ ⟨Except.ok true, Except.ok 5, Except.ok 1⟩).effects = [])
      ∧ check cfgEx ⟨"normal", 0⟩ ⟨Except.ok true, Except.ok 5, Except.ok 1⟩
          = check cfgEx ⟨"normal", 0⟩ ⟨Except.ok true, Except.ok 99, Except.ok 1⟩ :=
  charging_tick_clears_state cfgEx ⟨"normal", 0⟩ (Except.ok 5) (Except.ok 99) (Except.ok 1)
    Reachable.init

/-- C5: transitions are edge-triggered.  A discharging tick whose classified
level equals the current one makes no call and leaves the state unchanged; and
over the tick sequence normal → low → low → critical with succeeding sends, the
send happens exactly twice, the stale low notification is closed exactly once
iff its identifier differs from the newly returned one, and the run ends at
`⟨"critical", id2⟩`. -/
theorem edge_triggered_transitions (cfg : Config) (st : MonitorState) (capacity : Int)
    (es : Except String Nat) (id1 id2 : Nat)
    (hsame : (classifyWith cfg capacity).1 = st.currentLevel) (hid1 : id1 ≠ 0) :
    check cfg st ⟨Except.ok false, Except.ok capacity, es⟩ = ⟨none, st, []⟩
      ∧ (scenario id1 id2).2.countP Effect.isSend = 2
      ∧ (scenario id1 id2).2.filter Effect.isClose
          = (if id1 = id2 then [] else [Effect.close id1])
      ∧ (scenario id1 id2).1 = ⟨"critical", id2⟩ := by
  simp only [scenario, runTicks]
  rw [check_discharging cfgEx ⟨"normal", 0⟩ 18 (Except.ok id1)]
  rw [if_pos (show (classifyWith cfgEx 18).1 ≠ ("normal" : String)
        ∧ (classifyWith cfgEx 18).1 ≠ "normal" by decide)]
  dsimp only
  rw [if_neg (show ¬((0 : Nat) ≠ 0 ∧ (0 : Nat) ≠ id1) from fun h => h.1 rfl)]
  rw [check_noop cfgEx ⟨(classifyWith cfgEx 18).1, id1⟩ 18 (Except.ok id1) rfl]
  dsimp only
  rw [check_discharging cfgEx ⟨(classifyWith cfgEx 18).1, id1⟩ 9 (Except.ok id2)]
  rw [if_pos (show (classifyWith cfgEx 9).1 ≠ (classifyWith cfgEx 18).1
        ∧ (classifyWith cfgEx 9).1 ≠ "normal" by decide)]
  dsimp only
  rw [show (classifyWith cfgEx 9).1 = "critical" from by decide]
  by_cases h12 : id1 = id2
  · subst h12
    rw [if_neg (fun h => h.2 rfl), if_pos rfl]
    exact ⟨check_noop cfg st capacity es hsame, rfl, rfl, rfl⟩
  · rw [if_pos ⟨hid1, h12⟩, if_neg h12]
    exact ⟨check_noop cfg st capacity es hsame, rfl, rfl, rfl⟩

/-- Witness for `edge_triggered_transitions`: a sustained-low no-op tick and
the scenario with identifiers 7 and 9. -/
theorem edge_triggered_transitions_witness :
    (classifyWith cfgEx 18).1 = ("low" : String) ∧ (7 : Nat) ≠ 0
      ∧ (check cfgEx ⟨"low", 4⟩ ⟨Except.ok false, Except.ok 18, Except.ok 5⟩
            = ⟨none, ⟨"low", 4⟩, []⟩
          ∧ (scenario 7 9).2.countP Effect.isSend = 2
          ∧ (scenario 7 9).2.filter Effect.isClose
              = (if (7 : Nat) = 9 then [] else [Effect.close 7])
          ∧ (scenario 7 9).1 = ⟨"critical", 9⟩) :=
  ⟨by decide, by decide,
   edge_triggered_transitions cfgEx ⟨"low", 4⟩ 18 (Except.ok 5) 7 9 (by decide) (by decide)⟩

/-- C9 counterexample: a parsed config with `poll_interval: -3` loads
successfully and keeps the negative interval — the loaded poll interval is not
at least 1. -/
theorem negative_poll_interval_cex :
    loadConfig (Except.ok (⟨"", -3, BatteryLevel.zero, BatteryLevel.zero⟩ : Config))
        = Except.ok (⟨"Battery Monitor", -3, BatteryLevel.zero, BatteryLevel.zero⟩ : Config)
      ∧ ¬(1 ≤ (-3 : Int)) := by
  decide

/-- C9 amended: every successfully loaded config has a nonzero poll interval
and a nonempty app name; an explicit zero poll interval becomes 5 and an empty
app name becomes "Battery Monitor" (indistinguishable from an absent key); the
interval is at least 1 whenever the parsed value was nonnegative, but a
negative parsed value is kept as-is. -/
theorem load_config_defaults (parsed : Except String Config) (c : Config)
    (h : loadConfig parsed = Except.ok c) :
    c.pollInterval ≠ 0 ∧ c.appName ≠ ""
      ∧ (∀ c0 : Config, parsed = Except.ok c0 → 0 ≤ c0.pollInterval → 1 ≤ c.pollInterval)
      ∧ (∀ c0 : Config, parsed = Except.ok c0 → c0.pollInterval = 0 → c.pollInterval = 5)
      ∧ (∀ c0 : Config, parsed = Except.ok c0 → c0.appName = "" →
          c.appName = "Battery Monitor") := by
  cases parsed with
  | error e => exact absurd h (by simp [loadConfig])
  | ok c0 =>
    have hc : c = applyDefaults c0 := by
      have h' : Except.ok (applyDefaults c0) = Except.ok c := h
      exact (Except.ok.inj h').symm
    subst hc
    refine ⟨?_, ?_, ?_, ?_, ?_⟩
    · show (if c0.pollInterval = 0 then (5 : Int) else c0.pollInterval) ≠ 0
      by_cases hz : c0.pollInterval = 0
      · rw [if_pos hz]
        decide
      · rw [if_neg hz]
        exact hz
    · show (if c0.appName = "" then "Battery Monitor" else c0.appName) ≠ ""
      by_cases ha : c0.appName = ""
      · rw [if_pos ha]
        decide
      · rw [if_neg ha]
        exact ha
    · intro c0' hp hge
      have he := Except.ok.inj hp
      subst he
      show (1 : Int) ≤ if c0.pollInterval = 0 then 5 else c0.pollInterval
      by_cases hz : c0.pollInterval = 0
      · rw [if_pos hz]
        decide
      · rw [if_neg hz]
        omega
    · intro c0' hp hz
      have he := Except.ok.inj hp
      subst he
      show (if c0.pollInterval = 0 then (5 : Int) else c0.pollInterval) = 5
      rw [if_pos hz]
    · intro c0' hp ha
      have he := Except.ok.inj hp
      subst he
      show (if c0.appName = "" then "Battery Monitor" else c0.appName) = "Battery Monitor"
      rw [if_pos ha]

/-- Witness for `load_config_defaults` at a parsed config with both defaults
triggered. -/
theorem load_config_defaults_witness :
    loadConfig (Except.ok (⟨"", 0, BatteryLevel.zero, BatteryLevel.zero⟩ : Config))
        = Except.ok (⟨"Battery Monitor", 5, BatteryLevel.zero, BatteryLevel.zero⟩ : Config)
      ∧ ((⟨"Battery Monitor", 5, BatteryLevel.zero, BatteryLevel.zero⟩ : Config).pollInterval ≠ 0
          ∧ (⟨"Battery Monitor", 5, BatteryLevel.zero, BatteryLevel.zero⟩ : Config).appName ≠ ""
          ∧ (∀ c0 : Config,
              (Except.ok (⟨"", 0, BatteryLevel.zero, BatteryLevel.zero⟩ : Config)
                    : Except String Config)
                  = Except.ok c0 →
                0 ≤ c0.pollInterval →
                1 ≤ (⟨"Battery Monitor", 5, BatteryLevel.zero,
                      BatteryLevel.zero⟩ : Config).pollInterval)
          ∧ (∀ c0 : Config,
              (Except.ok (⟨"", 0, BatteryLevel.zero, BatteryLevel.zero⟩ : Config)
                    : Except String Config)
                  = Except.ok c0 →
                c0.pollInterval = 0 →
                (⟨"Battery Monitor", 5, BatteryLevel.zero,
                  BatteryLevel.zero⟩ : Config).pollInterval = 5)
          ∧ (∀ c0 : Config,
              (Except.ok (⟨"", 0, BatteryLevel.zero, BatteryLevel.zero⟩ : Config)
                    : Except String Config)
                  = Except.ok c0 →
                c0.appName = "" →
                (⟨"Battery Monitor", 5, BatteryLevel.zero,
                  BatteryLevel.zero⟩ : Config).appName = "Battery Monitor")) :=
  ⟨by decide,
   load_config_defaults (Except.ok ⟨"", 0, BatteryLevel.zero, BatteryLevel.zero⟩)
     ⟨"Battery Monitor", 5, BatteryLevel.zero, BatteryLevel.zero⟩ (by decide)⟩
